import Mathlib

/-!
Shallow embedding of vidi.js (reactive nested-proxy model layer, render
scheduler, checksum, reconciler compatibility predicate, template renderer
fragments) for checking the natural-language specification against the code.
All definitions are translated from src/vidi.js; line references are given
in the doc comments.
-/

/-- JavaScript runtime values, as far as the model layer of vidi.js
manipulates them: primitives, arrays, plain objects (ordered field lists,
matching JS property insertion order) and opaque function references
(identified by a token, since JS compares functions by identity). -/
inductive JSVal where
  | vundef : JSVal
  | vnull : JSVal
  | vbool : Bool → JSVal
  | vnum : Int → JSVal
  | vstr : String → JSVal
  | varr : List JSVal → JSVal
  | vobj : List (String × JSVal) → JSVal
  | vfun : Nat → JSVal

namespace JSVal

/-- The JS `typeof` operator on the embedded values (`typeof null` is
"object", arrays are "object"). -/
def typeof : JSVal → String
  | vundef => "undefined"
  | vnull => "object"
  | vbool _ => "boolean"
  | vnum _ => "number"
  | vstr _ => "string"
  | varr _ => "object"
  | vobj _ => "object"
  | vfun _ => "function"

/-- The JS `Array.isArray` test as used by NestProxy.setProperty (src/vidi.js line 70). -/
def isArray : JSVal → Bool
  | varr _ => true
  | _ => false

/-- Assoc-list lookup used to model JS property access on plain objects. -/
def lookupField : List (String × JSVal) → String → JSVal
  | [], _ => vundef
  | (k, v) :: rest, key => if k = key then v else lookupField rest key

/-- JS property read `obj[key]`: object fields by name, array slots by
numeric index, everything else yields `undefined`. -/
def get (v : JSVal) (key : String) : JSVal :=
  match v with
  | vobj fs => lookupField fs key
  | varr xs =>
      match key.toNat? with
      | some i => xs.getD i vundef
      | none => vundef
  | _ => vundef

/-- Replace the value of an existing key, keeping its position (JS keeps
the insertion position of an existing property on re-assignment). -/
def setField : List (String × JSVal) → String → JSVal → List (String × JSVal)
  | [], key, v => [(key, v)]
  | (k, w) :: rest, key, v =>
      if k = key then (k, v) :: rest else (k, w) :: setField rest key v

/-- JS property write `obj[key] = v`: updates objects and in-range array
slots; on any other receiver the assignment is a silent no-op (sloppy-mode
JS semantics for primitives). -/
def setKey (obj : JSVal) (key : String) (v : JSVal) : JSVal :=
  match obj with
  | vobj fs => vobj (setField fs key v)
  | varr xs =>
      match key.toNat? with
      | some i => varr (xs.set i v)
      | none => varr xs
  | other => other

/-- JS `delete obj[key]`. -/
def delKey (obj : JSVal) (key : String) : JSVal :=
  match obj with
  | vobj fs => vobj (fs.filter (fun kv => kv.1 ≠ key))
  | other => other

/-- The loose comparison `x == undefined` used by the path walkers in
VidiView.setPath / deletePath (src/vidi.js lines 420, 447): true exactly
for `undefined` and `null`. -/
def looseUndef : JSVal → Bool
  | vundef => true
  | vnull => true
  | _ => false

/-- The strict comparison `stored === value` of VidiView.setPath
(src/vidi.js line 428). The code only reaches it under the guard
`typeof value !== "object"`, so it is consulted only when at least one
side is a non-object: structural equality on same-type primitives,
identity (modelled by the token) on function references, false across
kinds and against objects. -/
def strictEqPrim : JSVal → JSVal → Bool
  | vundef, vundef => true
  | vbool a, vbool b => a == b
  | vnum a, vnum b => a == b
  | vstr a, vstr b => a == b
  | vfun a, vfun b => a == b
  | _, _ => false

end JSVal

/-- Observable effects of one NestProxy.setProperty invocation: the raw
assignments made directly into the wrapped target objects
(src/vidi.js lines 82, 101) and the calls issued to the handler,
`Handler.write(root, path, value)` alias `setPath` (lines 85, 102).
Paths are absolute from the model root, as `keypath(prop)` produces them. -/
structure WriteTrace where
  targetWrites : List (List String × JSVal)
  handlerCalls : List (List String × JSVal)

namespace WriteTrace

def append (a b : WriteTrace) : WriteTrace :=
  { targetWrites := a.targetWrites ++ b.targetWrites,
    handlerCalls := a.handlerCalls ++ b.handlerCalls }

end WriteTrace

namespace NestProxy

mutual

/-- NestProxy.setProperty (src/vidi.js lines 67-105), as the trace of
target assignments and handler calls it performs. `path` is the wrapper's
own keypath; the invocation concerns `path ++ [prop]`.
`isobj` (lines 68-72) holds exactly for plain objects: `typeof == "object"`
excluding null, undefined and arrays, i.e. the `vobj` constructor.
Scalar branch (lines 80-86): with `ischild` set, assign the raw target and
stop; otherwise forward to `Handler.setPath`. Plain-object branch
(lines 88-104): recursively invoke the child wrapper's setProperty for
every own key with `ischild == true` (lines 96-98), then - only when not
itself a child call - assign the raw target and forward one
`Handler.setPath` for the whole value (lines 100-103). The subtree-cache
bookkeeping (lines 74-76, 88-94) creates or drops wrappers but performs no
data writes and no handler calls, except the `target[prop] = {}`
placeholder of line 89, which only initializes a missing slot with an
empty object whose keys the recursion then fills (or, when not a child
call, line 101 overwrites wholesale). -/
def setProperty (path : List String) (prop : String) (value : JSVal)
    (ischild : Bool) : WriteTrace :=
  match value with
  | .vobj fs =>
      let child := setPropertyChildren (path ++ [prop]) fs
      if ischild then child
      else child.append
        { targetWrites := [(path ++ [prop], value)],
          handlerCalls := [(path ++ [prop], value)] }
  | _ =>
      if ischild then
        { targetWrites := [(path ++ [prop], value)], handlerCalls := [] }
      else
        { targetWrites := [], handlerCalls := [(path ++ [prop], value)] }

/-- The `for (let k in value)` fan-out of src/vidi.js lines 96-98: each own
key is written through the child wrapper with `ischild == true`. -/
def setPropertyChildren (path : List String) :
    List (String × JSVal) → WriteTrace
  | [] => { targetWrites := [], handlerCalls := [] }
  | (k, v) :: rest =>
      (setProperty path k v true).append (setPropertyChildren path rest)

end

end NestProxy

/-- Result of one VidiView.setPath / deletePath call: the per-key watch
callbacks invoked (key, new value), and either an error (the thrown
`Error("Can not set key ...")`) or the updated model store together with
whether `self.render()` was reached. -/
structure SetPathOut where
  watchCalls : List (String × JSVal)
  result : Except Unit (JSVal × Bool)

namespace VidiView

/-- The final assignment step of VidiView.setPath (src/vidi.js
lines 425-434): at the parent object reached by the walk, an equal
non-object value returns early before the assignment and before
`self.render()` (lines 427-429); otherwise the key is assigned and a
render is requested. The returned Bool records whether render was
reached. -/
def finalWrite (obj : JSVal) (key : String) (value : JSVal) :
    JSVal × Bool :=
  if value.typeof ≠ "object" ∧ (obj.get key).strictEqPrim value then
    (obj, false)
  else
    (obj.setKey key value, true)

/-- The intermediate-segment walk of VidiView.setPath (src/vidi.js
lines 418-424) fused with the final write: every segment but the last is
descended through, throwing when the looked-up value is loosely equal to
undefined (line 420-422). An empty path behaves like the single key
"undefined", because `path[idx]` with `idx == 0` on an empty array yields
`undefined`, which JS stringifies as a property name. -/
def writeAt : JSVal → List String → JSVal → Except Unit (JSVal × Bool)
  | obj, [], value => .ok (finalWrite obj "undefined" value)
  | obj, [key], value => .ok (finalWrite obj key value)
  | obj, key :: rest, value =>
      if (obj.get key).looseUndef then .error ()
      else
        match writeAt (obj.get key) rest value with
        | .error e => .error e
        | .ok (sub, r) => .ok (obj.setKey key sub, r)

/-- VidiView.setPath (src/vidi.js lines 405-435). `watchKeys` models
`self.$watch`: the set of top-level keys carrying a watch callback. The
watch block (lines 411-416) runs first, before the walk, the equality
suppression and the assignment, whenever the path has exactly one
segment. -/
def setPath (watchKeys : List String) (store : JSVal) (path : List String)
    (value : JSVal) : SetPathOut :=
  { watchCalls :=
      match path with
      | [k] => if k ∈ watchKeys then [(k, value)] else []
      | _ => [],
    result := writeAt store path value }

/-- The walk of VidiView.deletePath (src/vidi.js lines 440-456) fused with
the final `delete obj[key]`; a render is always requested on success. -/
def eraseAt : JSVal → List String → Except Unit (JSVal × Bool)
  | obj, [] => .ok (obj.delKey "undefined", true)
  | obj, [key] => .ok (obj.delKey key, true)
  | obj, key :: rest =>
      if (obj.get key).looseUndef then .error ()
      else
        match eraseAt (obj.get key) rest with
        | .error e => .error e
        | .ok (sub, r) => .ok (obj.setKey key sub, r)

/-- VidiView.deletePath (src/vidi.js lines 440-456). -/
def deletePath (store : JSVal) (path : List String) :
    Except Unit (JSVal × Bool) :=
  eraseAt store path

/-- A path traverses a missing intermediate segment of `store`: some
non-final segment looks up a value loosely equal to undefined. This is
exactly the condition under which the walks of setPath and deletePath
throw. -/
def pathBroken : JSVal → List String → Bool
  | _, [] => false
  | _, [_] => false
  | obj, key :: rest =>
      (obj.get key).looseUndef || pathBroken (obj.get key) rest

/-- The scalar / whole-object forwarding of NestProxy.setProperty
(src/vidi.js lines 85 and 102): the wrapper returns
`this.handler.setPath(robj.target, this.keypath(prop), value)` directly,
with no try/catch around it, so the handler's outcome - including a thrown
error - reaches the wrapper's caller unmodified. -/
def writeThrough (watchKeys : List String) (store : JSVal)
    (parentPath : List String) (prop : String) (value : JSVal) :
    SetPathOut :=
  setPath watchKeys store (parentPath ++ [prop]) value

/-- NestProxy.deleteProperty (src/vidi.js lines 110-118): after dropping
the cached subtree it returns
`this.handler.deletePath(robj.target, this.keypath(prop))` directly, with
no try/catch, so a thrown error propagates unmodified. -/
def eraseThrough (store : JSVal) (parentPath : List String)
    (prop : String) : Except Unit (JSVal × Bool) :=
  deletePath store (parentPath ++ [prop])

end VidiView

/-- The render-scheduling state of a VidiView: `$renderlock`
(src/vidi.js lines 388-399), `renderedOnce` (lines 334, 366-371),
whether a debounce timeout is pending (`renderTimeout`, lines 376-385),
and a count of completed `dorender` executions. -/
structure SchedState where
  renderlock : Bool
  renderedOnce : Bool
  timerPending : Bool
  renders : Nat

namespace VidiView

/-- VidiView.render (src/vidi.js lines 330-386): returns immediately while
`$renderlock` is set (line 332) - no timer is started and no render
happens. Before the first render, `dorender` runs synchronously
(line 374). Afterwards, any pending timeout is cleared and a fresh one is
set (lines 376-385), coalescing to a single pending timer. -/
def render (s : SchedState) : SchedState :=
  if s.renderlock then s
  else if ¬ s.renderedOnce then
    { s with renders := s.renders + 1, renderedOnce := true }
  else
    { s with timerPending := true }

/-- The debounce timeout firing (src/vidi.js lines 380-384): clears the
pending handle and runs `dorender`. -/
def timerFire (s : SchedState) : SchedState :=
  if s.timerPending then
    { s with timerPending := false, renders := s.renders + 1 }
  else s

/-- A reactive mutation reaching the scheduler: VidiView.setPath and
deletePath end in `self.render()` (src/vidi.js lines 433, 454). -/
def mutate (s : SchedState) : SchedState :=
  render s

/-- VidiView.lock (src/vidi.js lines 388-391). -/
def lock (s : SchedState) : SchedState :=
  { s with renderlock := true }

/-- VidiView.unlock (src/vidi.js lines 393-399): whenever the lock was
held, clear it and call `render()` unconditionally - there is no check of
any dirty flag recorded during the locked period. -/
def unlock (s : SchedState) : SchedState :=
  if s.renderlock then render { s with renderlock := false }
  else s

end VidiView

namespace Vidi

/-- JS `x |= 0`: coercion to a signed 32-bit integer, keeping the residue
modulo 2^32 in the range [-2^31, 2^31). -/
def toInt32 (n : Int) : Int := (n + 2 ^ 31) % 2 ^ 32 - 2 ^ 31

/-- One step of the Vidi.checksum loop (src/vidi.js lines 1450-1454):
`hash = ((hash << 5) - hash) + chr; hash |= 0;`. The shift itself operates
on 32 bits, hence the inner coercion. -/
def hashStep (h : Int) (c : Nat) : Int :=
  toInt32 (toInt32 (h * 32) - h + (c : Int))

/-- The accumulated hash over a list of UTF-16 code units. -/
def checksumHash (cs : List Nat) : Int := cs.foldl hashStep 0

/-- src/vidi.js line 1455: `if (hash < 0) hash = -(hash - 1);`. -/
def checksumNonneg (h : Int) : Int := if h < 0 then -(h - 1) else h

/-- JS `n.toString(16)` for a nonnegative integer (lowercase hex digits). -/
def natToHex (n : Nat) : String := String.mk (Nat.toDigits 16 n)

/-- JS `code.padStart(8, '0')`. -/
def padStart8 (s : String) : String :=
  String.mk (List.replicate (8 - s.length) '0') ++ s

/-- src/vidi.js lines 1456-1457: format the nonnegative hash as
`code.substr(0,4) + "-" + code.substr(4)` of the zero-padded hex form. -/
def checksumFormat (h : Int) : String :=
  let code := padStart8 (natToHex (checksumNonneg h).toNat)
  code.take 4 ++ "-" ++ code.drop 4

/-- Vidi.checksum (src/vidi.js lines 1445-1458) applied to a string input
(the `typeof s == "string"` case): hash the code units and format. The
source inputs are ASCII, where `Char.toNat` coincides with `charCodeAt`. -/
def checksumOfString (s : String) : String :=
  checksumFormat (checksumHash (s.data.map Char.toNat))

mutual

/-- Model of `JSON.stringify` restricted to the shapes Vidi.checksum feeds it
(plain data without cycles; member strings assumed free of characters
that need escaping). `undefined` and function values serialize as `null`
inside arrays and are omitted as object members, as in JS. -/
def stringifyJSON : JSVal → String
  | .vnull => "null"
  | .vundef => "null"
  | .vfun _ => "null"
  | .vbool b => if b then "true" else "false"
  | .vnum n => toString n
  | .vstr s => "\"" ++ s ++ "\""
  | .varr xs => "[" ++ stringifyArr xs ++ "]"
  | .vobj fs => "\x7b" ++ stringifyObj fs ++ "\x7d"

def stringifyArr : List JSVal → String
  | [] => ""
  | [x] => stringifyJSON x
  | x :: rest => stringifyJSON x ++ "," ++ stringifyArr rest

def stringifyObj : List (String × JSVal) → String
  | [] => ""
  | [(_, .vundef)] => ""
  | [(_, .vfun _)] => ""
  | [(k, v)] => "\"" ++ k ++ "\":" ++ stringifyJSON v
  | (_, .vundef) :: rest => stringifyObj rest
  | (_, .vfun _) :: rest => stringifyObj rest
  | (k, v) :: rest =>
      "\"" ++ k ++ "\":" ++ stringifyJSON v ++ "," ++ stringifyObj rest

end

/-- The input normalization of Vidi.checksum (src/vidi.js lines 1446-1448):
object-typed values go through JSON.stringify, any other non-string value
through the String() coercion. A function's String() form is its source
text, modelled here by an opaque marker; no checksummed value in the
claims is a function. -/
def checksumInput (v : JSVal) : String :=
  if v.typeof = "object" then stringifyJSON v
  else
    match v with
    | .vstr s => s
    | .vnum n => toString n
    | .vbool b => if b then "true" else "false"
    | .vundef => "undefined"
    | .vfun _ => "function"
    | _ => ""

/-- Vidi.checksum (src/vidi.js lines 1445-1458) on an arbitrary value. -/
def checksum (v : JSVal) : String :=
  checksumOfString (checksumInput v)

end Vidi

/-- Render-output / template DOM nodes as vidi.js manipulates them:
elements with an ordered attribute list, an input `value` property
(distinct from attributes) and ordered children; text nodes; comments. -/
inductive DNode where
  | element : String → List (String × String) → Option String →
      List DNode → DNode
  | text : String → DNode
  | comment : String → DNode

namespace DNode

/-- The DOM `Node.nodeType`: 1 for elements, 3 for text, 8 for comments. -/
def nodeType : DNode → Nat
  | element _ _ _ _ => 1
  | text _ => 3
  | comment _ => 8

/-- The DOM `tagName`, undefined (none) on non-elements. -/
def tagName : DNode → Option String
  | element t _ _ _ => some t
  | _ => none

def lookupAttr : List (String × String) → String → Option String
  | [], _ => none
  | (k, v) :: rest, a => if k = a then some v else lookupAttr rest a

/-- The DOM `getAttribute`, null (none) when absent or on non-elements (the code
guards each use with `if (left.getAttribute)`). -/
def getAttribute : DNode → String → Option String
  | element _ attrs _ _, a => lookupAttr attrs a
  | _, _ => none

/-- The DOM `setAttribute` on the attribute list: replace in place or append. -/
def setAttrList : List (String × String) → String → String →
    List (String × String)
  | [], a, v => [(a, v)]
  | (k, w) :: rest, a, v =>
      if k = a then (k, v) :: rest else (k, w) :: setAttrList rest a v

/-- The DOM `removeAttribute` on the attribute list. -/
def removeAttrList (attrs : List (String × String)) (a : String) :
    List (String × String) :=
  attrs.filter (fun kv => kv.1 ≠ a)

def setAttribute : DNode → String → String → DNode
  | element t attrs v cs, a, w => element t (setAttrList attrs a w) v cs
  | n, _, _ => n

/-- The DOM `childNodes`, empty on non-elements. -/
def childNodes : DNode → List DNode
  | element _ _ _ cs => cs
  | _ => []

/-- Replace an element's child list (used for the padding / trimming the
reconciler performs on the left node). -/
def withChildren : DNode → List DNode → DNode
  | element t attrs v _, cs => element t attrs v cs
  | n, _ => n

/-- The DOM `childElementCount`: number of element children. -/
def childElementCount (n : DNode) : Nat :=
  (n.childNodes.filter (fun c => c.nodeType = 1)).length

mutual

/-- The DOM `textContent`: own text for text and comment nodes; for elements, the
concatenated text of descendants, comments excluded. -/
def textContent : DNode → String
  | text s => s
  | comment s => s
  | element _ _ _ cs => childrenText cs

/-- Concatenated `textContent` contribution of an element's child list;
comment children contribute nothing. -/
def childrenText : List DNode → String
  | [] => ""
  | c :: rest => childText c ++ childrenText rest

def childText : DNode → String
  | comment _ => ""
  | text s => s
  | element _ _ _ cs => childrenText cs

end

/-- The `value` property (input elements), undefined on non-elements. -/
def val : DNode → Option String
  | element _ _ v _ => v
  | _ => none

def setVal : DNode → Option String → DNode
  | element t attrs _ cs, v => element t attrs v cs
  | n, _ => n

/-- JS truthiness of a `getAttribute` result: present and non-empty. -/
def truthyAttr : Option String → Bool
  | some s => !s.isEmpty
  | none => false

end DNode

namespace VidiView

/-- The `document.createElement("div")` filler used as filler when padding the left
node's child list (src/vidi.js line 816). -/
def fillerDiv : DNode := .element "DIV" [] none []

/-- One conditional set/remove step of the attribute-transplant loops of
VidiView.compareNodes (src/vidi.js lines 845-864), applied to the current
left attribute list against the (unchanging) right list. -/
def syncStep (rattrs : List (String × String))
    (acc : List (String × String)) (a : String) : List (String × String) :=
  if DNode.lookupAttr acc a ≠ DNode.lookupAttr rattrs a then
    match DNode.lookupAttr rattrs a with
    | none => DNode.removeAttrList acc a
    | some v => DNode.setAttrList acc a v
  else acc

/-- The two attribute-transplant loops of VidiView.compareNodes
(src/vidi.js lines 845-864): walk left's attribute names, then right's,
setting or removing on left wherever the values differ. The name lists
are the snapshots `getAttributeNames()` returns before each loop. -/
def syncAttrs (lattrs rattrs : List (String × String)) :
    List (String × String) :=
  let afterLeft :=
    (lattrs.map Prod.fst).foldl (syncStep rattrs) lattrs
  (rattrs.map Prod.fst).foldl (syncStep rattrs) afterLeft

/-- VidiView.compareNodes (src/vidi.js lines 796-868). Returns `none` for
"false" (incompatible) and `some left'` for "true", where `left'` is the
left node after the gentle mutations the predicate performs (child
padding / trimming, value copy, attribute transplant). Order of checks as
in the source: node type (797), tag name (800), the "keep" static policy
(804-807), child-count adjustment (809-824), leaf text (826-828), input
value (830-832), and for elements the event-signature comparison
(838-843) followed by the attribute transplant (845-864). -/
def compareNodes (left right : DNode) : Option DNode :=
  if left.nodeType ≠ right.nodeType then none
  else if left.tagName ≠ right.tagName then none
  else if left.getAttribute "v-static" = some "keep" then some left
  else
    let ll := left.childNodes.length
    let rl := right.childNodes.length
    let step1 : Option DNode :=
      if ll < rl then
        if ll = 0 then none
        else if ll > 100 then none
        else some (left.withChildren
          (left.childNodes ++ List.replicate (rl - ll) fillerDiv))
      else if ll > rl then
        if ll > 100 then none
        else some (left.withChildren (left.childNodes.take rl))
      else some left
    match step1 with
    | none => none
    | some l1 =>
        if l1.childElementCount = 0 ∧ l1.textContent ≠ right.textContent
        then none
        else
          let l2 := if l1.val ≠ right.val then l1.setVal right.val else l1
          if l2.nodeType = 1 then
            let le := l2.getAttribute "v-eventid"
            let re := right.getAttribute "v-eventid"
            if (DNode.truthyAttr le || DNode.truthyAttr re) ∧ le ≠ re then
              none
            else
              match l2, right with
              | .element t lattrs v cs, .element _ rattrs _ _ =>
                  some (.element t (syncAttrs lattrs rattrs) v cs)
              | _, _ => some l2
          else some l2

/-- The event-signature stamp computed by VidiView.cloneElement
(src/vidi.js lines 519-697): each two-way-binding and event-binding
attribute appends `"//" + val` to `checksumstr` (lines 580, 592); when
anything was collected, the serialized non-internal local scope is
appended (lines 684-691) and the node gets a `v-eventid` attribute
holding `Vidi.checksum(checksumstr)` (lines 692-696). `sources` is the
list of bound source texts in attribute order; `tvJson` the
`JSON.stringify(tv)` of the non-internal locals. -/
def eventIdFor (sources : List String) (tvJson : String) : Option String :=
  match sources with
  | [] => none
  | _ =>
      some (Vidi.checksumOfString
        (String.join (sources.map (fun v => "//" ++ v)) ++ "//" ++ tvJson))

/-- Stamp a rendered element with the event signature its bound source
texts produce, as cloneElement does at line 696. -/
def stampEventId (n : DNode) (sources : List String) (tvJson : String) :
    DNode :=
  match eventIdFor sources tvJson with
  | none => n
  | some id => n.setAttribute "v-eventid" id

end VidiView

/-- One `$loopcache` entry (src/vidi.js lines 980-983): the content
checksum of the iterated collection at the last render of this site and
the subtree root elements produced then. -/
structure LoopCacheEntry where
  datachk : String
  elements : List DNode

/-- The view state `self.$loopcache`, keyed by the literal `v-for` source text. -/
abbrev LoopCache := List (String × LoopCacheEntry)

namespace VidiView

def lookupCache : LoopCache → String → Option LoopCacheEntry
  | [], _ => none
  | (k, e) :: rest, key => if k = key then some e else lookupCache rest key

def setCache : LoopCache → String → LoopCacheEntry → LoopCache
  | [], key, e => [(key, e)]
  | (k, w) :: rest, key, e =>
      if k = key then (k, e) :: rest else (k, w) :: setCache rest key e

/-- The enumeration `for (let i in data)` over the evaluated collection
(src/vidi.js line 986): object keys in insertion order, array indices as
strings; primitives enumerate nothing. -/
def jsEntries : JSVal → List (String × JSVal)
  | .vobj fs => fs
  | .varr xs => (List.range xs.length).zip xs |>.map
      (fun p => (toString p.1, p.2))
  | _ => []

/-- The fresh-render arm of the v-for handling (src/vidi.js
lines 980-993): install a new cache entry for this site, clone one
element per collection entry (`mkClone` receives the entry and the
running `index` counter) and record the produced elements. -/
def renderForFresh (loopfor : String) (data : JSVal) (cache : LoopCache)
    (mkClone : String × JSVal → Nat → DNode) :
    List DNode × LoopCache × Bool :=
  let elems := (jsEntries data).enum.map (fun p => mkClone p.2 p.1)
  (elems, setCache cache loopfor ⟨Vidi.checksum data, elems⟩, false)

/-- The v-for memoization of VidiView.renderTemplate (src/vidi.js
lines 968-993): compute `Vidi.checksum` of the evaluated collection; if
this site (keyed by the literal loop source text) has a cache entry with
the same checksum, append the previously produced elements unchanged and
skip the loop body entirely (lines 971-979); otherwise re-render and
re-cache. The returned Bool tells whether the cached elements were
reused. -/
def renderForBranch (loopfor : String) (data : JSVal) (cache : LoopCache)
    (mkClone : String × JSVal → Nat → DNode) :
    List DNode × LoopCache × Bool :=
  let datachk := Vidi.checksum data
  match lookupCache cache loopfor with
  | some entry =>
      if entry.datachk = datachk then (entry.elements, cache, true)
      else renderForFresh loopfor data cache mkClone
  | none => renderForFresh loopfor data cache mkClone

/-- VidiView.renderTemplate for one template node (src/vidi.js
lines 920-1013), as the list of nodes appended to `into` plus the updated
loop cache. External collaborators are parameters: `evalTruthy` is the
truthiness of `self.eval` (line 930, 942), `evalExpr` evaluates the loop
collection expression (line 968), `parseText` is `parseMoustache` on a
text node (line 1003), `clone` is `appendClone` of the element itself
with the hide flag (lines 991, 996), and `cloneLoop` is `appendClone` of
one loop iteration with its bound loop variables and the hide flag.
Directive order as in the source: `v-if` first (lines 928-937, a false
condition appends one `comment("v-if")` placeholder and stops), then
`v-show` (lines 939-945), then `v-for` (lines 947-994) or a plain clone
(line 996). Text nodes are moustache-parsed (lines 999-1012); template
comment nodes produce nothing (no branch handles them). -/
def renderTemplate (evalTruthy : String → Bool) (evalExpr : String → JSVal)
    (parseText : String → String) (clone : DNode → Bool → DNode)
    (cloneLoop : String × JSVal → Nat → Bool → DNode)
    (cache : LoopCache) (orig : DNode) : List DNode × LoopCache :=
  match orig with
  | .element _ attrs _ _ =>
      let vif := DNode.lookupAttr attrs "v-if"
      if DNode.truthyAttr vif && !evalTruthy (vif.getD "") then
        ([.comment "v-if"], cache)
      else
        let hide :=
          match DNode.lookupAttr attrs "v-show" with
          | some s => !s.isEmpty && !evalTruthy s
          | none => false
        match DNode.lookupAttr attrs "v-for" with
        | some loopfor =>
            if loopfor.isEmpty then ([clone orig hide], cache)
            else
              let loopval := (loopfor.splitOn " in ").getD 1 ""
              let res := renderForBranch loopfor (evalExpr loopval) cache
                (fun kv idx => cloneLoop kv idx hide)
              (res.1, res.2.1)
        | none => ([clone orig hide], cache)
  | .text s => if s.isEmpty then ([], cache) else ([.text (parseText s)], cache)
  | .comment _ => ([], cache)

end VidiView

/-- A pre-split moustache template string: literal stretches and
`\x7b\x7b expr \x7d\x7d` spans (the regex match of src/vidi.js line 316,
`src` being the text between the double braces). -/
inductive MSeg where
  | lit : String → MSeg
  | span : String → MSeg

namespace VidiView

/-- The `String()` coercion applied when `str.replace` concatenates a
non-string callback result into the output. Object-typed values never
reach it here (they are intercepted at src/vidi.js line 320). -/
def jsStringPrim : JSVal → String
  | .vundef => "undefined"
  | .vnull => "null"
  | .vbool b => if b then "true" else "false"
  | .vnum n => toString n
  | .vstr s => s
  | .vfun _ => "function"
  | _ => ""

/-- The replacement computed for one moustache span by the callback of
VidiView.parseMoustache (src/vidi.js lines 316-324), together with the
number of diagnostics emitted: a `null`/`undefined` evaluation result is
returned as-is and coerced by `replace` to the literal text "null" /
"undefined"; a non-object result is substituted textually; a (non-null)
object triggers one `Vidi.warn` and substitutes "[Object]". -/
def moustacheSpan (res : JSVal) : String × Nat :=
  match res with
  | .vnull => ("null", 0)
  | .vundef => ("undefined", 0)
  | res =>
      if res.typeof ≠ "object" then (jsStringPrim res, 0)
      else ("[Object]", 1)

/-- VidiView.parseMoustache (src/vidi.js lines 314-325) over a pre-split
string: every span is evaluated with `self.eval` (modelled by the
`evalFn` parameter) and replaced; literal stretches pass through. Returns
the rebuilt string and the number of diagnostics emitted. -/
def parseMoustache (evalFn : String → JSVal) : List MSeg → String × Nat
  | [] => ("", 0)
  | .lit s :: rest =>
      let t := parseMoustache evalFn rest
      (s ++ t.1, t.2)
  | .span src :: rest =>
      let rep := moustacheSpan (evalFn src)
      let t := parseMoustache evalFn rest
      (rep.1 ++ t.1, rep.2 + t.2)

end VidiView

namespace JSVal

/-- Pure nested read along a path (the data part of VidiView.getPath,
src/vidi.js lines 473-479), used to state what is currently stored at a
path. -/
def getPath : JSVal → List String → JSVal
  | v, [] => v
  | v, k :: rest => (v.get k).getPath rest

end JSVal

namespace NestProxy

mutual

/-- Child invocations of setProperty (`ischild == true`) never call the
handler: scalars are stored into the raw target (src/vidi.js lines 81-84)
and object fan-out returns before the handler call (lines 100-104). -/
theorem handlerCalls_child : ∀ (path : List String) (prop : String)
    (value : JSVal),
    (setProperty path prop value true).handlerCalls = []
  | path, prop, .vobj fs => by
      simp [setProperty, handlerCalls_children (path ++ [prop]) fs]
  | _, _, .vundef => rfl
  | _, _, .vnull => rfl
  | _, _, .vbool _ => rfl
  | _, _, .vnum _ => rfl
  | _, _, .vstr _ => rfl
  | _, _, .varr _ => rfl
  | _, _, .vfun _ => rfl

theorem handlerCalls_children : ∀ (path : List String)
    (fs : List (String × JSVal)),
    (setPropertyChildren path fs).handlerCalls = []
  | _, [] => rfl
  | path, (k, v) :: rest => by
      simp [setPropertyChildren, WriteTrace.append,
        handlerCalls_child path k v, handlerCalls_children path rest]

end

/-- A non-child setProperty invocation issues exactly one handler call,
for the whole value at its own path, whatever the value's shape. -/
theorem handlerCalls_root (path : List String) (prop : String)
    (value : JSVal) :
    (setProperty path prop value false).handlerCalls
      = [(path ++ [prop], value)] := by
  cases value <;>
    simp [setProperty, WriteTrace.append, handlerCalls_children]

end NestProxy

/-- C1: the claim states that a reactive write of a plain-object value V at
path P triggers a path-qualified Handler.write at P+k for every own key k
of V, plus one Handler.write at P itself. The code does not do this: the
child recursion runs with `ischild == true`, which stores each key into
the raw target and skips the Handler entirely (src/vidi.js lines 81-84,
100-104). Writing `obj.sub = (a:1,b:2)` produces exactly one observable
Handler.write, at path ["sub"], and none at ["sub","a"] or ["sub","b"]. -/
theorem C1_scenarioD_counterexample :
    ((NestProxy.setProperty [] "sub"
        (.vobj [("a", .vnum 1), ("b", .vnum 2)]) false).handlerCalls.map
      Prod.fst = [["sub"]])
    ∧ ["sub", "a"] ∉ ((NestProxy.setProperty [] "sub"
        (.vobj [("a", .vnum 1), ("b", .vnum 2)]) false).handlerCalls.map
      Prod.fst)
    ∧ ["sub", "b"] ∉ ((NestProxy.setProperty [] "sub"
        (.vobj [("a", .vnum 1), ("b", .vnum 2)]) false).handlerCalls.map
      Prod.fst) := by
  refine ⟨rfl, ?_, ?_⟩ <;> decide

/-- C1 (amended): for every reactive write of a plain-object value V at
path P, the wrapper recursively invokes the child wrapper's write for
every own key of V, but those child invocations store the values directly
into the raw target without any Handler notification; the only observable
Handler.write is the single Handler.write(root, P, V) for the whole
replacement. In particular `obj.sub = (a:1,b:2)` produces exactly one
observable Handler write, at `obj.sub`. -/
theorem C1_whole_object_single_handler_write (path : List String)
    (prop : String) (value : JSVal) :
    (NestProxy.setProperty path prop value false).handlerCalls
      = [(path ++ [prop], value)] :=
  NestProxy.handlerCalls_root path prop value

namespace JSVal

/-- Re-assigning an existing field with its own value leaves the field
list unchanged. -/
theorem setField_lookup_self : ∀ (fs : List (String × JSVal)) (k : String),
    lookupField fs k ≠ vundef → setField fs k (lookupField fs k) = fs
  | [], _, h => absurd rfl h
  | (a, w) :: rest, k, h => by
      by_cases hk : a = k
      · subst hk; simp [lookupField, setField]
      · simp [lookupField, hk] at h
        simp [lookupField, setField, hk,
          setField_lookup_self rest k h]

/-- Re-assigning an in-range array slot with its own value leaves the
list unchanged. -/
theorem set_getD_self : ∀ (xs : List JSVal) (i : Nat),
    xs.getD i vundef ≠ vundef → xs.set i (xs.getD i vundef) = xs
  | [], _, h => absurd rfl h
  | _ :: _, 0, _ => rfl
  | x :: xs, i + 1, h => congrArg (x :: ·) (set_getD_self xs i h)

/-- Writing back the value just read at a key that is present (not
loosely undefined) does not change the store. -/
theorem setKey_get_self (obj : JSVal) (k : String)
    (h : (obj.get k).looseUndef = false) :
    obj.setKey k (obj.get k) = obj := by
  cases obj with
  | vobj fs =>
      have hne : lookupField fs k ≠ vundef := by
        intro he; rw [get, he] at h; exact absurd h (by simp [looseUndef])
      simp [get, setKey, setField_lookup_self fs k hne]
  | varr xs =>
      cases hi : k.toNat? with
      | none => simp [get, hi, looseUndef] at h
      | some i =>
          have hne : xs.getD i vundef ≠ vundef := by
            intro he
            simp only [get, hi, he, looseUndef] at h
            exact absurd h (by decide)
          have hset := set_getD_self xs i hne
          simp only [get, setKey, hi]
          exact congrArg varr hset
  | vundef => simp [get, looseUndef] at h
  | vnull => simp [get, looseUndef] at h
  | vbool b => simp [get, looseUndef] at h
  | vnum n => simp [get, looseUndef] at h
  | vstr s => simp [get, looseUndef] at h
  | vfun f => simp [get, looseUndef] at h

end JSVal

namespace VidiView

/-- Along an unbroken path, writing a non-object value strictly equal to
the stored one returns before the assignment and before the render:
the store comes back unchanged with the render flag clear. -/
theorem writeAt_noop : ∀ (p0 : List String) (store value : JSVal)
    (prop : String),
    pathBroken store (p0 ++ [prop]) = false →
    value.typeof ≠ "object" →
    ((store.getPath p0).get prop).strictEqPrim value = true →
    writeAt store (p0 ++ [prop]) value = .ok (store, false)
  | [], store, value, prop, _, hty, heq => by
      have h1 : writeAt store ([] ++ [prop]) value
          = .ok (finalWrite store prop value) := rfl
      rw [h1]
      unfold finalWrite
      rw [if_pos ⟨hty, heq⟩]
  | k :: rest, store, value, prop, hb, hty, heq => by
      rcases hr : rest ++ [prop] with _ | ⟨r, rs⟩
      · exact absurd hr (by simp)
      · simp only [List.cons_append] at hb ⊢
        rw [hr] at hb
        have hsplit : (store.get k).looseUndef = false
            ∧ pathBroken (store.get k) (r :: rs) = false := by
          simpa [pathBroken, Bool.or_eq_false_iff] using hb
        have ih := writeAt_noop rest (store.get k) value prop
          (by rw [hr]; exact hsplit.2) hty heq
        rw [hr] at ih
        rw [hr]
        simp [writeAt, hsplit.1, ih,
          JSVal.setKey_get_self store k hsplit.1]

end VidiView

/-- C2: the claim states that writing a scalar value (including null and
sequences) equal to the stored one skips the Handler.write call entirely
and enqueues no render. Counterexample at value null: `typeof null` is
"object", so the equality suppression of src/vidi.js line 427 does not
apply; the store is re-assigned and `self.render()` runs (flag true) even
though the written value equals the stored one. The Handler call is also
not skipped for any scalar: NestProxy.setProperty always forwards to
`Handler.setPath` (line 85); the equality check happens inside the
Handler. -/
theorem C2_equal_null_write_counterexample :
    (JSVal.vobj [("x", .vnull)]).get "x" = .vnull
    ∧ (VidiView.setPath [] (.vobj [("x", .vnull)]) ["x"] .vnull).result
        = .ok (.vobj [("x", .vnull)], true)
    ∧ (NestProxy.setProperty [] "x" .vnull false).handlerCalls
        = [(["x"], .vnull)] :=
  ⟨rfl, rfl, rfl⟩

/-- C2 (amended): the equal-value suppression applies exactly to values
with `typeof value !== "object"` (primitives, undefined and function
references - not null and not sequences). For such a value strictly equal
to the one stored at an unbroken path, the write leaves the stored model
state unchanged and enqueues no render; the Handler.write call itself is
still issued by the wrapper (the equality check lives inside the
Handler), it merely returns early. -/
theorem C2_equal_scalar_noop (w : List String) (store value : JSVal)
    (p0 : List String) (prop : String)
    (hb : VidiView.pathBroken store (p0 ++ [prop]) = false)
    (hty : value.typeof ≠ "object")
    (heq : ((store.getPath p0).get prop).strictEqPrim value = true) :
    (VidiView.setPath w store (p0 ++ [prop]) value).result
      = .ok (store, false)
    ∧ (NestProxy.setProperty p0 prop value false).handlerCalls
        = [(p0 ++ [prop], value)] :=
  ⟨VidiView.writeAt_noop p0 store value prop hb hty heq,
   NestProxy.handlerCalls_root p0 prop value⟩

/-- Witness for C2 (amended): suppressing rewrite of the number 5 over a
stored 5 at path ["x"]. -/
theorem C2_equal_scalar_noop_witness :
    (VidiView.setPath [] (.vobj [("x", .vnum 5)]) ["x"] (.vnum 5)).result
      = .ok (.vobj [("x", .vnum 5)], false)
    ∧ (NestProxy.setProperty [] "x" (.vnum 5) false).handlerCalls
        = [(["x"], .vnum 5)] := by
  have h := C2_equal_scalar_noop [] (.vobj [("x", .vnum 5)]) (.vnum 5)
    [] "x" rfl (by decide) rfl
  simpa using h

namespace VidiView

/-- A broken path makes the setPath walk throw. -/
theorem writeAt_broken : ∀ (path : List String) (store value : JSVal),
    pathBroken store path = true → writeAt store path value = .error ()
  | [], _, _, hb => by simp [pathBroken] at hb
  | [_], _, _, hb => by simp [pathBroken] at hb
  | k :: r :: rs, store, value, hb => by
      rcases hu : (store.get k).looseUndef with _ | _
      · have hb2 : pathBroken (store.get k) (r :: rs) = true := by
          simpa [pathBroken, hu] using hb
        have ih := writeAt_broken (r :: rs) (store.get k) value hb2
        simp [writeAt, hu, ih]
      · simp [writeAt, hu]

/-- A broken path makes the deletePath walk throw. -/
theorem eraseAt_broken : ∀ (path : List String) (store : JSVal),
    pathBroken store path = true → eraseAt store path = .error ()
  | [], _, hb => by simp [pathBroken] at hb
  | [_], _, hb => by simp [pathBroken] at hb
  | k :: r :: rs, store, hb => by
      rcases hu : (store.get k).looseUndef with _ | _
      · have hb2 : pathBroken (store.get k) (r :: rs) = true := by
          simpa [pathBroken, hu] using hb
        have ih := eraseAt_broken (r :: rs) (store.get k) hb2
        simp [eraseAt, hu, ih]
      · simp [eraseAt, hu]

end VidiView

/-- C4: for every write or erase whose path traverses a missing
intermediate segment, the Handler throws (the model's InvalidPath error),
and the failure reaches the wrapper's caller unmodified: the wrapper
entry points return the handler's outcome directly, with no try/catch
between them (src/vidi.js lines 85, 102, 117). -/
theorem C4_invalid_path_propagates (w : List String) (store value : JSVal)
    (p0 : List String) (prop : String)
    (hb : VidiView.pathBroken store (p0 ++ [prop]) = true) :
    (VidiView.setPath w store (p0 ++ [prop]) value).result = .error ()
    ∧ VidiView.deletePath store (p0 ++ [prop]) = .error ()
    ∧ (VidiView.writeThrough w store p0 prop value).result = .error ()
    ∧ VidiView.eraseThrough store p0 prop = .error () := by
  have hw := VidiView.writeAt_broken (p0 ++ [prop]) store value hb
  have he := VidiView.eraseAt_broken (p0 ++ [prop]) store hb
  exact ⟨hw, he, hw, he⟩

/-- Witness for C4: writing or erasing at path ["b","c"] of the model
(x:(a:1)) throws, "b" being a missing intermediate segment. -/
theorem C4_invalid_path_witness :
    (VidiView.setPath [] (.vobj [("a", .vnum 1)]) ["b", "c"]
      (.vnum 2)).result = .error ()
    ∧ VidiView.deletePath (.vobj [("a", .vnum 1)]) ["b", "c"] = .error ()
    ∧ (VidiView.writeThrough [] (.vobj [("a", .vnum 1)]) ["b"] "c"
        (.vnum 2)).result = .error ()
    ∧ VidiView.eraseThrough (.vobj [("a", .vnum 1)]) ["b"] "c"
        = .error () :=
  C4_invalid_path_propagates [] (.vobj [("a", .vnum 1)]) (.vnum 2)
    ["b"] "c" rfl

/-- C9: a per-key watch callback registered for top-level key k is invoked
synchronously with the new value on every write whose path is exactly
[k]: the watch block of VidiView.setPath (src/vidi.js lines 411-416) runs
before the walk, before the equality suppression and before the
assignment, so it fires regardless of whether the write is later
suppressed as an equal scalar. -/
theorem C9_watch_fires (w : List String) (store : JSVal) (k : String)
    (value : JSVal) (hk : k ∈ w) :
    (VidiView.setPath w store [k] value).watchCalls = [(k, value)] := by
  simp [VidiView.setPath, hk]

/-- Witness for C9: a suppressed equal-scalar write (number 5 over a
stored 5) still fires the watch for "x" with the new value. -/
theorem C9_watch_fires_witness :
    (VidiView.setPath ["x"] (.vobj [("x", .vnum 5)]) ["x"]
      (.vnum 5)).watchCalls = [("x", .vnum 5)]
    ∧ (VidiView.setPath ["x"] (.vobj [("x", .vnum 5)]) ["x"]
        (.vnum 5)).result = .ok (.vobj [("x", .vnum 5)], false) :=
  ⟨C9_watch_fires ["x"] (.vobj [("x", .vnum 5)]) "x" (.vnum 5)
    (by simp), rfl⟩

/-- C3: the claim states that mutations while Locked are remembered as
dirty, and that unlock() re-checks that dirty flag, rendering once
immediately if it is set and not at all if it is not set. The code keeps
no such flag: unlock() (src/vidi.js lines 393-399) calls render()
unconditionally whenever the lock was held. Starting Locked with no
mutation during the locked period (no dirty state anywhere, no pending
timer), unlock still enqueues a render - and as a debounced timer, not an
immediate render (the render count is unchanged at unlock time). -/
theorem C3_unlock_without_dirty_counterexample :
    (VidiView.unlock ⟨true, true, false, 0⟩).timerPending = true
    ∧ (VidiView.unlock ⟨true, true, false, 0⟩).renders = 0 :=
  ⟨rfl, rfl⟩

/-- C3 (amended): while the scheduler is Locked, every reactive mutation
performs no render and starts no timer (and nothing records it as dirty);
unlock(), whenever the lock was held, clears the lock and invokes
render() exactly once, unconditionally - scheduling one debounced render
when a first render already happened (not an immediate one), and an
immediate render only before the first render; unlocking an unlocked
scheduler does nothing. -/
theorem C3_lock_makes_mutations_inert (s : SchedState)
    (hl : s.renderlock = true) :
    VidiView.mutate s = s
    ∧ VidiView.unlock s = VidiView.render { s with renderlock := false }
    ∧ (s.renderedOnce = true →
        (VidiView.unlock s).timerPending = true
        ∧ (VidiView.unlock s).renders = s.renders)
    ∧ (s.renderedOnce = false →
        (VidiView.unlock s).renders = s.renders + 1)
    ∧ (∀ t : SchedState, t.renderlock = false → VidiView.unlock t = t) := by
  obtain ⟨rl, ro, tp, r⟩ := s
  subst hl
  refine ⟨rfl, ?_, ?_, ?_, ?_⟩
  · simp [VidiView.unlock]
  · intro hro; subst hro
    simp [VidiView.unlock, VidiView.render]
  · intro hro; subst hro
    simp [VidiView.unlock, VidiView.render]
  · intro t ht
    simp [VidiView.unlock, ht]

/-- Witness for C3 (amended): a locked scheduler that has rendered once;
a mutation is a no-op, and unlock enqueues one debounced render. -/
theorem C3_lock_makes_mutations_inert_witness :
    VidiView.mutate ⟨true, true, false, 3⟩ = ⟨true, true, false, 3⟩
    ∧ (VidiView.unlock ⟨true, true, false, 3⟩).timerPending = true
    ∧ (VidiView.unlock ⟨true, true, false, 3⟩).renders = 3 := by
  have h := C3_lock_makes_mutations_inert ⟨true, true, false, 3⟩ rfl
  exact ⟨h.1, (h.2.2.1 rfl).1, (h.2.2.1 rfl).2⟩

namespace DNode

theorem lookupAttr_set_self : ∀ (attrs : List (String × String))
    (a w : String), lookupAttr (setAttrList attrs a w) a = some w
  | [], a, w => by simp [setAttrList, lookupAttr]
  | (k, x) :: rest, a, w => by
      by_cases hk : k = a
      · subst hk; simp [setAttrList, lookupAttr]
      · simp [setAttrList, lookupAttr, hk,
          lookupAttr_set_self rest a w]

theorem lookupAttr_set_ne : ∀ (attrs : List (String × String))
    (a w b : String), b ≠ a →
    lookupAttr (setAttrList attrs a w) b = lookupAttr attrs b
  | [], a, w, b, hb => by simp [setAttrList, lookupAttr, Ne.symm hb]
  | (k, x) :: rest, a, w, b, hb => by
      by_cases hk : k = a
      · subst hk
        simp [setAttrList, lookupAttr, Ne.symm hb]
      · by_cases hbk : k = b
        · subst hbk; simp [setAttrList, lookupAttr, hk]
        · simp [setAttrList, lookupAttr, hk, hbk,
            lookupAttr_set_ne rest a w b hb]

end DNode

namespace Vidi

/-- The checksum code is never the empty string (it always contains the
dash separator). -/
theorem checksumFormat_isEmpty (h : Int) :
    (checksumFormat h).isEmpty = false := by
  rw [Bool.eq_false_iff]
  intro he
  rw [String.isEmpty_iff] at he
  have hlen := congrArg String.length he
  have hone : ("-" : String).length = 1 := rfl
  simp [checksumFormat, String.length_append, hone] at hlen

theorem checksumOfString_isEmpty (s : String) :
    (checksumOfString s).isEmpty = false :=
  checksumFormat_isEmpty _

end Vidi

namespace VidiView

/-- Two same-tag elements with equal children and value, the left not
carrying the "keep" static policy, where at least one side has a truthy
event signature and the signatures differ, are judged incompatible by
compareNodes (src/vidi.js lines 838-843). -/
theorem compareNodes_ne_eventid (tag : String)
    (a1 a2 : List (String × String)) (v : Option String) (cs : List DNode)
    (hkeep : DNode.lookupAttr a1 "v-static" ≠ some "keep")
    (htr : DNode.truthyAttr (DNode.lookupAttr a1 "v-eventid") = true
      ∨ DNode.truthyAttr (DNode.lookupAttr a2 "v-eventid") = true)
    (hne : DNode.lookupAttr a1 "v-eventid"
      ≠ DNode.lookupAttr a2 "v-eventid") :
    compareNodes (.element tag a1 v cs) (.element tag a2 v cs) = none := by
  rcases htr with h | h <;>
    simp [compareNodes, DNode.nodeType, DNode.tagName, DNode.getAttribute,
      DNode.childNodes, DNode.childElementCount, DNode.textContent,
      DNode.val, hkeep, hne, h]

end VidiView

/-- C5: the claim states that structurally identical nodes produced from
differing bound event source texts are never merged. The event signature
is a 32-bit string hash, so two differing source texts can collide: the
sources "Aa" and "BB" (with identical local scope) produce the very same
`v-eventid`, the two rendered nodes are identical, and compareNodes
judges them compatible - they are merged despite differing bound source
text. -/
theorem C5_signature_collision_counterexample :
    "Aa" ≠ "BB"
    ∧ VidiView.eventIdFor ["Aa"] "\x7b\x7d"
        = VidiView.eventIdFor ["BB"] "\x7b\x7d"
    ∧ (VidiView.compareNodes
        (VidiView.stampEventId (.element "BUTTON" [] none [])
          ["Aa"] "\x7b\x7d")
        (VidiView.stampEventId (.element "BUTTON" [] none [])
          ["BB"] "\x7b\x7d")).isSome = true := by
  exact ⟨by decide, by rfl, by rfl⟩

/-- C5 (amended): two render-output element nodes are never merged when
their event signatures differ: whenever the signature checksums computed
from the bound source texts are distinct, the compatibility predicate
judges the nodes incompatible. Distinct bound source texts guarantee this
only up to collisions of the 32-bit checksum: signature protection is
keyed on the checksum, not on the source text itself. -/
theorem C5_distinct_signatures_incompatible (tag : String)
    (attrs : List (String × String)) (v : Option String) (cs : List DNode)
    (s1 s2 : List String) (tv : String)
    (hkeep : DNode.lookupAttr attrs "v-static" ≠ some "keep")
    (h1 : s1 ≠ []) (h2 : s2 ≠ [])
    (hne : VidiView.eventIdFor s1 tv ≠ VidiView.eventIdFor s2 tv) :
    VidiView.compareNodes
      (VidiView.stampEventId (.element tag attrs v cs) s1 tv)
      (VidiView.stampEventId (.element tag attrs v cs) s2 tv) = none := by
  rcases s1 with _ | ⟨x1, t1⟩
  · exact absurd rfl h1
  rcases s2 with _ | ⟨x2, t2⟩
  · exact absurd rfl h2
  have e1 : VidiView.stampEventId (.element tag attrs v cs) (x1 :: t1) tv
      = .element tag (DNode.setAttrList attrs "v-eventid"
          (Vidi.checksumOfString
            (String.join ((x1 :: t1).map (fun s => "//" ++ s))
              ++ "//" ++ tv))) v cs := rfl
  have e2 : VidiView.stampEventId (.element tag attrs v cs) (x2 :: t2) tv
      = .element tag (DNode.setAttrList attrs "v-eventid"
          (Vidi.checksumOfString
            (String.join ((x2 :: t2).map (fun s => "//" ++ s))
              ++ "//" ++ tv))) v cs := rfl
  rw [e1, e2]
  apply VidiView.compareNodes_ne_eventid
  · rw [DNode.lookupAttr_set_ne _ _ _ _ (by decide)]
    exact hkeep
  · left
    rw [DNode.lookupAttr_set_self]
    simp [DNode.truthyAttr, Vidi.checksumOfString_isEmpty]
  · rw [DNode.lookupAttr_set_self, DNode.lookupAttr_set_self]
    simpa [VidiView.eventIdFor] using hne

set_option maxRecDepth 8000 in
/-- Witness for C5 (amended): two otherwise identical buttons bound to
source texts "doA()" and "doB()", whose checksums differ, are judged
incompatible. -/
theorem C5_distinct_signatures_incompatible_witness :
    VidiView.compareNodes
      (VidiView.stampEventId (.element "BUTTON" [] none [])
        ["doA()"] "\x7b\x7d")
      (VidiView.stampEventId (.element "BUTTON" [] none [])
        ["doB()"] "\x7b\x7d") = none :=
  C5_distinct_signatures_incompatible "BUTTON" [] none []
    ["doA()"] ["doB()"] "\x7b\x7d" (by decide) (by decide) (by decide)
    (by decide)

/-- C6: the claim states that any element change in the iterated
collection changes the content checksum, so no reuse occurs. The checksum
is a 32-bit string hash of the serialized collection, so distinct
collections can collide: replacing ["Aa"] by ["BB"] leaves the checksum
unchanged, and the second render of the same loop site reuses the cached
subtree roots verbatim even though the collection changed. -/
theorem C6_checksum_collision_counterexample :
    (JSVal.varr [.vstr "Aa"]) ≠ (JSVal.varr [.vstr "BB"])
    ∧ Vidi.checksum (.varr [.vstr "Aa"]) = Vidi.checksum (.varr [.vstr "BB"])
    ∧ (VidiView.renderForBranch "item in list" (.varr [.vstr "BB"])
        (VidiView.renderForBranch "item in list" (.varr [.vstr "Aa"]) []
          (fun _ _ => .element "LI" [] none [])).2.1
        (fun _ _ => .element "LI" [] none [])).2.2 = true
    ∧ (VidiView.renderForBranch "item in list" (.varr [.vstr "BB"])
        (VidiView.renderForBranch "item in list" (.varr [.vstr "Aa"]) []
          (fun _ _ => .element "LI" [] none [])).2.1
        (fun _ _ => .element "LI" [] none [])).1
      = (VidiView.renderForBranch "item in list" (.varr [.vstr "Aa"]) []
          (fun _ _ => .element "LI" [] none [])).1 := by
  exact ⟨by simp, by rfl, by rfl, by rfl⟩

/-- C6 (amended): for every iteration site keyed by its literal loop
source text, if the checksum of the evaluated collection equals the one
cached for that key, the previously produced subtree roots are returned
as the identical objects, the cache is untouched and the loop body is not
re-rendered; if the checksums differ, the loop is re-rendered freshly and
nothing is reused. A change in the collection invalidates the cache only
when it changes the 32-bit checksum - colliding collections are wrongly
reused. -/
theorem C6_loop_memoization (loopfor : String) (data : JSVal)
    (cache : LoopCache) (mk : String × JSVal → Nat → DNode)
    (entry : LoopCacheEntry)
    (hl : VidiView.lookupCache cache loopfor = some entry) :
    (entry.datachk = Vidi.checksum data →
      VidiView.renderForBranch loopfor data cache mk
        = (entry.elements, cache, true))
    ∧ (entry.datachk ≠ Vidi.checksum data →
      VidiView.renderForBranch loopfor data cache mk
        = VidiView.renderForFresh loopfor data cache mk
      ∧ (VidiView.renderForBranch loopfor data cache mk).2.2 = false) := by
  constructor
  · intro he
    simp [VidiView.renderForBranch, hl, he]
  · intro hne
    constructor
    · simp [VidiView.renderForBranch, hl, hne]
    · simp [VidiView.renderForBranch, VidiView.renderForFresh, hl, hne]

/-- Witness for C6 (amended): a cache holding checksum-matching entry for
the site "u in users" returns the cached elements with the reuse flag
set. -/
theorem C6_loop_memoization_witness :
    VidiView.renderForBranch "u in users" (.varr [.vnum 1])
      [("u in users", ⟨Vidi.checksum (.varr [.vnum 1]),
        [.element "LI" [] none []]⟩)]
      (fun _ _ => .element "P" [] none [])
    = ([.element "LI" [] none []],
       [("u in users", ⟨Vidi.checksum (.varr [.vnum 1]),
         [.element "LI" [] none []]⟩)], true) :=
  (C6_loop_memoization "u in users" (.varr [.vnum 1])
    [("u in users", ⟨Vidi.checksum (.varr [.vnum 1]),
      [.element "LI" [] none []]⟩)]
    (fun _ _ => .element "P" [] none [])
    ⟨Vidi.checksum (.varr [.vnum 1]), [.element "LI" [] none []]⟩
    (by simp [VidiView.lookupCache])).1 rfl

/-- C7: the claim states that a child-count mismatch below a bounded
threshold is tolerated (padding/trimming) and one above the threshold is
incompatible. The code's bound is not on the mismatch: with an old node of
0 children versus a new node of 1 child the mismatch is 1, yet the pair
is incompatible (an empty left cannot be padded, src/vidi.js line 813),
while with 1 versus 2 children the mismatch is also 1 and the pair is
padded and compatible - so compatibility is not determined by the size of
the mismatch at all. -/
theorem C7_mismatch_threshold_counterexample :
    VidiView.compareNodes (.element "DIV" [] none [])
      (.element "DIV" [] none [.text "x"]) = none
    ∧ (VidiView.compareNodes (.element "DIV" [] none [.text "x"])
        (.element "DIV" [] none [.text "x", .text "y"])).isSome = true
    ∧ (DNode.element "DIV" [] none [.text "x"]).childNodes.length
        - (DNode.element "DIV" [] none []).childNodes.length
      = (DNode.childNodes (.element "DIV" [] none
            [.text "x", .text "y"])).length
        - (DNode.element "DIV" [] none [.text "x"]).childNodes.length :=
  ⟨rfl, rfl, rfl⟩

/-- C7 (amended): the reconciler's tolerance bound applies to the old
(left) node's own child count, not to the size of the mismatch: an old
node with more than 100 children whose count mismatches the new node's is
incompatible, and an old node with zero children against a new node with
children is incompatible; in every other mismatching case the old side is
padded with DIV filler children (when shorter) or trimmed to the new
side's count (when longer) before further comparison, so a compatible
result always carries exactly the new node's child count. -/
theorem C7_child_count_adjustment (tag : String)
    (a1 a2 : List (String × String)) (v1 v2 : Option String)
    (cs1 cs2 : List DNode)
    (hkeep : DNode.lookupAttr a1 "v-static" ≠ some "keep") :
    (cs1.length = 0 → 0 < cs2.length →
      VidiView.compareNodes (.element tag a1 v1 cs1)
        (.element tag a2 v2 cs2) = none)
    ∧ (100 < cs1.length → cs1.length ≠ cs2.length →
      VidiView.compareNodes (.element tag a1 v1 cs1)
        (.element tag a2 v2 cs2) = none)
    ∧ (∀ l', VidiView.compareNodes (.element tag a1 v1 cs1)
        (.element tag a2 v2 cs2) = some l' →
        l'.childNodes
          = if cs1.length < cs2.length then
              cs1 ++ List.replicate (cs2.length - cs1.length)
                VidiView.fillerDiv
            else if cs2.length < cs1.length then cs1.take cs2.length
            else cs1) := by
  refine ⟨?_, ?_, ?_⟩
  · intro h0 hpos
    simp [VidiView.compareNodes, DNode.nodeType, DNode.tagName,
      DNode.getAttribute, DNode.childNodes, hkeep, h0, hpos]
  · intro h100 hne
    rcases Nat.lt_or_gt_of_ne hne with hlt | hgt
    · have hne0 : cs1.length ≠ 0 := by omega
      have hgt100 : 100 < cs1.length := h100
      simp [VidiView.compareNodes, DNode.nodeType, DNode.tagName,
        DNode.getAttribute, DNode.childNodes, hkeep, hlt, hne0, hgt100]
    · have hnlt : ¬ cs1.length < cs2.length := by omega
      simp [VidiView.compareNodes, DNode.nodeType, DNode.tagName,
        DNode.getAttribute, DNode.childNodes, hkeep, hnlt, hgt, h100]
  · intro l' hcmp
    simp only [VidiView.compareNodes, DNode.nodeType, DNode.tagName,
      DNode.getAttribute, DNode.childNodes, DNode.withChildren,
      DNode.val, DNode.setVal, ne_eq, not_true_eq_false, if_false,
      reduceIte, hkeep] at hcmp
    split_ifs at hcmp
    all_goals try simp_all
    all_goals obtain ⟨-, -, hl⟩ := hcmp
    all_goals subst hl
    all_goals try split_ifs
    all_goals first | rfl | (exfalso; omega)

/-- Witness for C7 (amended): an old node with 0 children against a new
node with one child is incompatible although the mismatch is only 1. -/
theorem C7_child_count_adjustment_witness :
    VidiView.compareNodes (.element "UL" [] none [])
      (.element "UL" [] none [.element "LI" [] none []]) = none :=
  (C7_child_count_adjustment "UL" [] [] none none []
    [.element "LI" [] none []] (by simp [DNode.lookupAttr])).1 rfl
    (by decide)

/-- C8: for every template element whose v-if directive is present
(non-empty, hence truthy) and evaluates false, rendering appends exactly
one comment placeholder in the element's sibling position, renders none
of its children (the clone machinery is never consulted - the statement
holds for every clone function), and leaves the loop cache untouched, so
the parent keeps the same number of child positions. -/
theorem C8_false_conditional_placeholder
    (evalTruthy : String → Bool) (evalExpr : String → JSVal)
    (parseText : String → String) (clone : DNode → Bool → DNode)
    (cloneLoop : String × JSVal → Nat → Bool → DNode)
    (cache : LoopCache) (tag : String) (attrs : List (String × String))
    (v : Option String) (cs : List DNode) (s : String)
    (hvif : DNode.lookupAttr attrs "v-if" = some s)
    (hs : s.isEmpty = false)
    (hfalse : evalTruthy s = false) :
    VidiView.renderTemplate evalTruthy evalExpr parseText clone cloneLoop
      cache (.element tag attrs v cs) = ([.comment "v-if"], cache) := by
  simp [VidiView.renderTemplate, hvif, DNode.truthyAttr, hs, hfalse]

/-- Witness for C8: a DIV guarded by v-if="showsecrets" with the guard
evaluating false renders as a single comment placeholder, its text child
unrendered. -/
theorem C8_false_conditional_placeholder_witness :
    VidiView.renderTemplate (fun _ => false) (fun _ => .vundef) id
      (fun n _ => n) (fun _ _ _ => .text "") []
      (.element "DIV" [("v-if", "showsecrets")] none [.text "secret"])
    = ([.comment "v-if"], []) :=
  C8_false_conditional_placeholder (fun _ => false) (fun _ => .vundef) id
    (fun n _ => n) (fun _ _ _ => .text "") [] "DIV"
    [("v-if", "showsecrets")] none [.text "secret"] "showsecrets"
    rfl rfl rfl

/-- C10: for every moustache span in leaf text or a plain attribute
value, a span evaluating to null or undefined is replaced by the literal
text "null" or "undefined" respectively (the callback returns the value
and `replace` coerces it); a span evaluating to a non-null object emits
one diagnostic and is replaced by "[Object]"; any other value is
substituted textually. -/
theorem C10_moustache_substitution (evalFn : String → JSVal)
    (pre post e : String) :
    (evalFn e = .vnull →
      VidiView.parseMoustache evalFn [.lit pre, .span e, .lit post]
        = (pre ++ "null" ++ post, 0))
    ∧ (evalFn e = .vundef →
      VidiView.parseMoustache evalFn [.lit pre, .span e, .lit post]
        = (pre ++ "undefined" ++ post, 0))
    ∧ ((evalFn e).typeof = "object" → evalFn e ≠ .vnull →
      VidiView.parseMoustache evalFn [.lit pre, .span e, .lit post]
        = (pre ++ "[Object]" ++ post, 1))
    ∧ ((evalFn e).typeof ≠ "object" →
      VidiView.parseMoustache evalFn [.lit pre, .span e, .lit post]
        = (pre ++ VidiView.jsStringPrim (evalFn e) ++ post, 0)) := by
  refine ⟨?_, ?_, ?_, ?_⟩
  · intro h
    simp [VidiView.parseMoustache, VidiView.moustacheSpan, h,
      String.append_empty, String.append_assoc]
  · intro h
    simp [VidiView.parseMoustache, VidiView.moustacheSpan, h,
      String.append_empty, String.append_assoc]
  · intro hty hnull
    rcases he : evalFn e with _ | _ | b | n | st | xs | fs | f
    · rw [he] at hty; exact absurd hty (by decide)
    · exact absurd he hnull
    · rw [he] at hty; exact absurd hty (by simp [JSVal.typeof])
    · rw [he] at hty; exact absurd hty (by simp [JSVal.typeof])
    · rw [he] at hty; exact absurd hty (by simp [JSVal.typeof])
    · simp [VidiView.parseMoustache, VidiView.moustacheSpan, he,
        JSVal.typeof, String.append_empty, String.append_assoc]
    · simp [VidiView.parseMoustache, VidiView.moustacheSpan, he,
        JSVal.typeof, String.append_empty, String.append_assoc]
    · rw [he] at hty; exact absurd hty (by simp [JSVal.typeof])
  · intro hty
    rcases he : evalFn e with _ | _ | b | n | st | xs | fs | f
    · simp [VidiView.parseMoustache, VidiView.moustacheSpan,
        VidiView.jsStringPrim, he, JSVal.typeof,
        String.append_empty, String.append_assoc]
    · rw [he] at hty
      exact absurd (by decide : (JSVal.vnull).typeof = "object") hty
    · simp [VidiView.parseMoustache, VidiView.moustacheSpan,
        VidiView.jsStringPrim, he, JSVal.typeof,
        String.append_empty, String.append_assoc]
    · simp [VidiView.parseMoustache, VidiView.moustacheSpan,
        VidiView.jsStringPrim, he, JSVal.typeof,
        String.append_empty, String.append_assoc]
    · simp [VidiView.parseMoustache, VidiView.moustacheSpan,
        VidiView.jsStringPrim, he, JSVal.typeof,
        String.append_empty, String.append_assoc]
    · rw [he] at hty
      exact absurd (rfl : (JSVal.varr xs).typeof = "object") hty
    · rw [he] at hty
      exact absurd (rfl : (JSVal.vobj fs).typeof = "object") hty
    · simp [VidiView.parseMoustache, VidiView.moustacheSpan,
        VidiView.jsStringPrim, he, JSVal.typeof,
        String.append_empty, String.append_assoc]

/-- Witness for C10: a span evaluating to an object substitutes
"[Object]" with one diagnostic; one evaluating to null substitutes the
literal text "null" with none. -/
theorem C10_moustache_substitution_witness :
    VidiView.parseMoustache (fun _ => .vobj [("a", .vnum 1)])
      [.lit "x = ", .span "user", .lit "!"] = ("x = [Object]!", 1)
    ∧ VidiView.parseMoustache (fun _ => .vnull)
      [.lit "v:", .span "missing", .lit "."] = ("v:null.", 0) :=
  ⟨(C10_moustache_substitution (fun _ => .vobj [("a", .vnum 1)])
      "x = " "!" "user").2.2.1 rfl (by simp),
   (C10_moustache_substitution (fun _ => .vnull)
      "v:" "." "missing").1 rfl⟩
